import Mathlib

set_option maxRecDepth 40000

namespace JamKiller

/-!
Shallow embedding of the narrative worker.

The session actor is the Durable Object `NarrativeDO` in `src/worker/index.ts`
(the `/update` and `/finalize` branches of its `fetch` method); the rate
governor is the KV-backed middleware on `/narrative/update/*` in
`src/unnamed/part_001`.  JavaScript strings are modeled as lists of
characters, timestamps (`Date.now()`) as natural numbers passed in
explicitly, and the persisted keys `narrativeState` / `finalNarrative` of
the durable storage as the two fields of `DOState`.
-/

/-- Model of a JavaScript string: a list of characters. -/
abbrev JStr := List Char

/-- Whitespace characters removed by `String.prototype.trim` (space, tab,
line feed, carriage return, vertical tab, form feed, no-break space, BOM,
line separator, paragraph separator). -/
def isJsWhitespace (c : Char) : Bool :=
  c == ' ' || c == '\t' || c == '\n' || c == '\r' || c.val == 11 || c.val == 12 ||
    c.val == 160 || c.val == 65279 || c.val == 8232 || c.val == 8233

/-- Model of `answer.trim()`: drop whitespace from both ends. -/
def jsTrim (s : JStr) : JStr :=
  ((s.dropWhile isJsWhitespace).reverse.dropWhile isJsWhitespace).reverse

/-- The reserved command string checked at `src/worker/index.ts:91`. -/
def CLEAR_NARRATIVE : JStr := "CLEAR_NARRATIVE".data

/-- The session record `this.narrativeState` of `NarrativeDO`
(`src/worker/index.ts:29`). -/
structure NarrativeState where
  answers : List JStr
  createdAt : Nat
  lastUpdated : Nat
deriving DecidableEq

/-- The record stored under the `finalNarrative` key
(`src/worker/index.ts:205`), with `metadata` flattened into the two fields
`answerCount` and `processingTime`. -/
structure FinalNarrativeData where
  narrativeText : JStr
  mojoScore : Int
  timestamp : Nat
  answerCount : Nat
  processingTime : Nat

/-- Combined durable state of one `NarrativeDO` instance: the in-memory and
persisted session record plus the stored final narrative (if any). -/
structure DOState where
  narrativeState : NarrativeState
  finalNarrative : Option FinalNarrativeData

/-- Outcome of the `/update` branch, one constructor per response of
`src/worker/index.ts:96-135`. -/
inductive UpdateResult
  | cleared
  | invalidInput
  | capacityExceeded
  | answerAdded (answerCount : Nat)
deriving DecidableEq

/-- The `/update` branch of `NarrativeDO.fetch` (`src/worker/index.ts:88-135`):
intercept the reserved command, validate the answer, enforce the 20-answer
cap, then push the trimmed answer. -/
def handleUpdate (st : DOState) (answer : JStr) (now : Nat) : DOState × UpdateResult :=
  if answer = CLEAR_NARRATIVE then
    ({ narrativeState := { answers := [], createdAt := now, lastUpdated := now },
       finalNarrative := none }, .cleared)
  else if answer = [] ∨ (jsTrim answer).length = 0 ∨ 1000 < answer.length then
    (st, .invalidInput)
  else if 20 ≤ st.narrativeState.answers.length then
    (st, .capacityExceeded)
  else
    let sanitizedAnswer := jsTrim answer
    let newState : NarrativeState :=
      { st.narrativeState with
        answers := st.narrativeState.answers ++ [sanitizedAnswer],
        lastUpdated := now }
    ({ st with narrativeState := newState }, .answerAdded newState.answers.length)

/-- Model of `answers.join('\n')` (`src/worker/index.ts:148`). -/
def joinNL : List JStr → JStr
  | [] => []
  | [a] => a
  | a :: rest => a ++ '\n' :: joinNL rest

/-- The reduce at `src/worker/index.ts:193-196`: sum of the answer lengths. -/
def totalAnswerLength (answers : List JStr) : Nat :=
  (answers.map List.length).sum

/-- The mojo score computation at `src/worker/index.ts:197-202`, with the
JavaScript number arithmetic modeled exactly over the rationals. -/
def mojoScore (answers : List JStr) : Int :=
  let averageAnswerLength : ℚ := (totalAnswerLength answers : ℚ) / (answers.length : ℚ)
  let answerCountFactor : ℚ := min ((answers.length : ℚ) / 10) 1
  min ⌊averageAnswerLength * 10 + answerCountFactor * 20⌋ 100

/-- Restatement of the score formula following the words of the spec
(section 4.3 step 3): `n`, `totalLen`, `avgLen`, `countFactor`,
`mojoScore = min(floor(avgLen*10 + countFactor*20), 100)`.  Kept separate
from `mojoScore` so the code formula can be compared against it. -/
def mojoScoreSpec (answers : List JStr) : Int :=
  let n : ℚ := answers.length
  let totalLen : ℚ := totalAnswerLength answers
  let avgLen : ℚ := totalLen / n
  let countFactor : ℚ := min (n / 10) 1
  min ⌊avgLen * 10 + countFactor * 20⌋ 100

/-- The `message` object inside one entry of `choices`: `content` is `none`
when the field is missing or not a string. -/
structure AIChoiceMessage where
  content : Option JStr

/-- Duck-typed shape of the value returned by `env.AI.run`: `choices` is
`none` when absent or not an array; an entry is `none` when its `message`
is missing or null. -/
structure AIResponseShape where
  choices : Option (List (Option AIChoiceMessage))

/-- Behaviour of the text-generation call: it either throws or returns a
value of the modeled shape. -/
inductive AIOutcome
  | throws
  | returns (r : AIResponseShape)

/-- The shape check at `src/worker/index.ts:179-185`: the response must have
a non-empty `choices` array whose first entry has a `message` with a string
`content`. -/
def extractContent (r : AIResponseShape) : Option JStr :=
  match r.choices with
  | some (some msg :: _) => msg.content
  | _ => none

/-- True when the generation call failed in any way: it threw, or its
response does not pass the shape check. -/
def aiFailed : AIOutcome → Bool
  | .throws => true
  | .returns r => (extractContent r).isNone

/-- The fallback narrative substituted when the AI call throws
(`src/worker/index.ts:173`). -/
def fallbackOnThrow (promptContent : JStr) : JStr :=
  "Final Narrative: ".data ++ promptContent

/-- The fallback narrative substituted when the AI response fails the shape
check (`src/worker/index.ts:189`). -/
def fallbackOnBadShape (promptContent : JStr) : JStr :=
  "Final Narrative (fallback): ".data ++ promptContent

/-- Outcome of the `/finalize` branch. -/
inductive FinalizeResult
  | insufficientData
  | finalized (d : FinalNarrativeData)

/-- The `/finalize` branch of `NarrativeDO.fetch` (`src/worker/index.ts:136-221`):
require at least one answer, run the AI call with its two-level fallback,
compute the mojo score, store the final narrative.  The session record
itself is not written. -/
def handleFinalize (st : DOState) (outcome : AIOutcome) (now : Nat) :
    DOState × FinalizeResult :=
  if st.narrativeState.answers.length < 1 then
    (st, .insufficientData)
  else
    let promptContent := joinNL st.narrativeState.answers
    let aiResponse : AIResponseShape :=
      match outcome with
      | .throws => { choices := some [some { content := some (fallbackOnThrow promptContent) }] }
      | .returns r => r
    let finalNarrativeText : JStr :=
      match extractContent aiResponse with
      | some c => c
      | none => fallbackOnBadShape promptContent
    let finalNarrativeData : FinalNarrativeData :=
      { narrativeText := finalNarrativeText
        mojoScore := mojoScore st.narrativeState.answers
        timestamp := now
        answerCount := st.narrativeState.answers.length
        processingTime := 0 }
    ({ st with finalNarrative := some finalNarrativeData }, .finalized finalNarrativeData)

/-- One inbound operation against a session actor. -/
inductive Op
  | update (answer : JStr) (now : Nat)
  | finalize (outcome : AIOutcome) (now : Nat)

/-- State reached after one operation. -/
def applyOp (st : DOState) : Op → DOState
  | .update a now => (handleUpdate st a now).1
  | .finalize o now => (handleFinalize st o now).1

/-- The per-identity counter stored in `RATE_LIMIT_KV`
(`src/unnamed/part_001:106`). -/
structure RateCounter where
  count : Nat
  windowEnd : Nat
deriving DecidableEq

/-- Outcome of the rate-limit middleware for one request. -/
inductive RateResult
  | allow
  | deny (retryAfterSeconds : Nat)
deriving DecidableEq

/-- `rateLimit.windowMs` (`src/unnamed/part_001:85`). -/
def rateLimitWindowMs : Nat := 60000

/-- `rateLimit.max` (`src/unnamed/part_001:86`). -/
def rateLimitMax : Nat := 10

/-- The rate-limit middleware body (`src/unnamed/part_001:98-142`), acting on
the stored counter of one identity.  `Math.ceil((windowEnd - now) / 1000)`
is written as `(windowEnd - now + 999) / 1000`, the integer form of the
ceiling of that division. -/
def rateCheck (current : Option RateCounter) (now : Nat) :
    Option RateCounter × RateResult :=
  match current with
  | some c =>
    if now < c.windowEnd then
      if rateLimitMax ≤ c.count then
        (some c, .deny ((c.windowEnd - now + 999) / 1000))
      else
        (some { count := c.count + 1, windowEnd := c.windowEnd }, .allow)
    else
      (some { count := 1, windowEnd := now + rateLimitWindowMs }, .allow)
  | none => (some { count := 1, windowEnd := now + rateLimitWindowMs }, .allow)

/-- Restatement of the rate governor following the words of the spec
(section 4.1): absent counter or expired window resets to count 1 and
allows; a count below the maximum increments and allows; otherwise deny
with the ceiling of `(windowEnd - now) / 1000` seconds.  Kept separate from
`rateCheck` so the code can be compared against it. -/
def rateCheckSpec (current : Option RateCounter) (now : Nat) :
    Option RateCounter × RateResult :=
  match current with
  | none => (some { count := 1, windowEnd := now + rateLimitWindowMs }, .allow)
  | some c =>
    if c.windowEnd ≤ now then
      (some { count := 1, windowEnd := now + rateLimitWindowMs }, .allow)
    else if c.count < rateLimitMax then
      (some { count := c.count + 1, windowEnd := c.windowEnd }, .allow)
    else
      (some c, .deny (Int.toNat ⌈((c.windowEnd - now : ℕ) : ℚ) / 1000⌉))

/-- Stored counter after a sequence of checks performed at the given
instants. -/
def runChecks (current : Option RateCounter) (times : List Nat) : Option RateCounter :=
  times.foldl (fun c t => (rateCheck c t).1) current

/-- Fresh session actor state: empty answer list, no stored final
narrative. -/
def freshState (now : Nat) : DOState :=
  { narrativeState := { answers := [], createdAt := now, lastUpdated := now },
    finalNarrative := none }

/-- Example state holding twenty one-character answers. -/
def stTwenty : DOState :=
  { narrativeState := { answers := List.replicate 20 [Char.ofNat 97], createdAt := 0, lastUpdated := 0 },
    finalNarrative := none }

/-- Example state holding one two-character answer. -/
def stOne : DOState :=
  { narrativeState := { answers := [[Char.ofNat 104, Char.ofNat 105]], createdAt := 0, lastUpdated := 0 },
    finalNarrative := none }

/-- Raw input of 1001 characters (1000 spaces then one letter) whose trimmed
form is a single letter. -/
def longRaw : JStr := List.replicate 1000 ' ' ++ [Char.ofNat 97]

/-- Raw input that trims to the reserved command without being exactly it. -/
def sneakyRaw : JStr := ' ' :: CLEAR_NARRATIVE


/-- Narrative text produced by the finalize branch as a function of the
answers and the AI outcome, used to state the branch equation below. -/
def narrativeTextOf (answers : List JStr) : AIOutcome → JStr
  | .throws => fallbackOnThrow (joinNL answers)
  | .returns r =>
    match extractContent r with
    | some c => c
    | none => fallbackOnBadShape (joinNL answers)

/-- The final narrative record produced by a successful finalize. -/
def finalRecord (answers : List JStr) (o : AIOutcome) (now : Nat) : FinalNarrativeData :=
  { narrativeText := narrativeTextOf answers o
    mojoScore := mojoScore answers
    timestamp := now
    answerCount := answers.length
    processingTime := 0 }

lemma handleFinalize_eq (st : DOState) (o : AIOutcome) (now : Nat)
    (h : st.narrativeState.answers ≠ []) :
    handleFinalize st o now =
      ({ st with finalNarrative := some (finalRecord st.narrativeState.answers o now) },
       .finalized (finalRecord st.narrativeState.answers o now)) := by
  have h1 : ¬ st.narrativeState.answers.length < 1 := by
    cases hs : st.narrativeState.answers with
    | nil => exact absurd hs h
    | cons a tl => simp [hs]
  rw [handleFinalize, if_neg h1]
  cases o with
  | throws => rfl
  | returns r => rfl

lemma handleFinalize_fst (st : DOState) (o : AIOutcome) (now : Nat)
    (h : st.narrativeState.answers ≠ []) :
    (handleFinalize st o now).1 =
      { st with finalNarrative := some (finalRecord st.narrativeState.answers o now) } := by
  rw [handleFinalize_eq st o now h]

lemma handleFinalize_snd (st : DOState) (o : AIOutcome) (now : Nat)
    (h : st.narrativeState.answers ≠ []) :
    (handleFinalize st o now).2 =
      .finalized (finalRecord st.narrativeState.answers o now) := by
  rw [handleFinalize_eq st o now h]

lemma jsCeil_eq (d : Nat) : (⌈((d : ℚ)) / 1000⌉ : ℤ) = ((d + 999) / 1000 : ℕ) := by
  set k : ℕ := (d + 999) / 1000 with hk
  have h1 : d ≤ 1000 * k := by omega
  have h2 : 1000 * k < d + 1000 := by omega
  have h1q : (d : ℚ) ≤ 1000 * k := by exact_mod_cast h1
  have h2q : (1000 : ℚ) * k < d + 1000 := by exact_mod_cast h2
  have hd : (d : ℚ) / 1000 = d * (1000)⁻¹ := by ring
  rw [Int.ceil_eq_iff]
  constructor
  · push_cast
    rw [sub_lt_iff_lt_add, hd]
    linarith
  · push_cast
    rw [hd]
    linarith

/-- C8: the reset command replaces the session by a fresh empty one whose
createdAt and lastUpdated are the current instant, persists it, and deletes
the stored final narrative. -/
theorem C8_reset_fresh (st : DOState) (now : Nat) :
    handleUpdate st CLEAR_NARRATIVE now =
      ({ narrativeState := { answers := [], createdAt := now, lastUpdated := now },
         finalNarrative := none }, UpdateResult.cleared) := by
  rw [handleUpdate, if_pos rfl]

/-- C6: finalizing a session with zero answers returns InsufficientData and
mutates no state. -/
theorem C6_finalize_empty (st : DOState) (o : AIOutcome) (now : Nat)
    (h : st.narrativeState.answers = []) :
    handleFinalize st o now = (st, FinalizeResult.insufficientData) := by
  rw [handleFinalize, if_pos (by simp [h])]

theorem C6_finalize_empty_witness :
    handleFinalize (freshState 0) AIOutcome.throws 7 =
      (freshState 0, FinalizeResult.insufficientData) :=
  C6_finalize_empty (freshState 0) AIOutcome.throws 7 rfl

/-- C5: the rate governor follows the fixed-window algorithm of the spec
(reset on absent or expired counter, increment below the maximum, deny with
the ceiling of the remaining window in seconds), the eleventh check of one
identity inside one window is denied with retry 60, each of the first ten
is allowed, and a check at the end of the window is allowed with a freshly
reset counter. -/
theorem C5_rate_governor :
    (∀ (current : Option RateCounter) (now : Nat),
        rateCheck current now = rateCheckSpec current now) ∧
    runChecks none (List.replicate 10 0) = some { count := 10, windowEnd := 60000 } ∧
    (∀ k : Fin 10, (rateCheck (runChecks none (List.replicate k.val 0)) 0).2 = RateResult.allow) ∧
    (rateCheck (runChecks none (List.replicate 10 0)) 0).2 = RateResult.deny 60 ∧
    rateCheck (runChecks none (List.replicate 10 0)) 60000 =
      (some { count := 1, windowEnd := 120000 }, RateResult.allow) := by
  refine ⟨?_, by decide, by decide, by decide, by decide⟩
  intro current now
  cases current with
  | none => rfl
  | some c =>
    rw [rateCheck, rateCheckSpec]
    by_cases h1 : now < c.windowEnd
    · by_cases h2 : rateLimitMax ≤ c.count
      · rw [if_pos h1, if_pos h2, if_neg (by omega), if_neg (by omega)]
        have hceil := jsCeil_eq (c.windowEnd - now)
        rw [Prod.mk.injEq]
        refine ⟨rfl, ?_⟩
        rw [hceil, Int.toNat_natCast]
      · rw [if_pos h1, if_neg h2, if_neg (by omega), if_pos (by omega)]
    · rw [if_neg h1, if_pos (by omega)]

/-- C1: for a non-empty answer list the mojo score computed by finalize
equals the spec formula, is an integer in the range 0 to 100, is produced
by finalize independently of the AI outcome, and evaluates to 64 on the
answers hello and world!!. -/
theorem C1_mojoScore_correct :
    (∀ answers : List JStr, answers ≠ [] →
        mojoScore answers = mojoScoreSpec answers ∧
        0 ≤ mojoScore answers ∧ mojoScore answers ≤ 100) ∧
    (∀ (st : DOState) (o : AIOutcome) (now : Nat), st.narrativeState.answers ≠ [] →
        ∃ d, (handleFinalize st o now).2 = FinalizeResult.finalized d ∧
          d.mojoScore = mojoScore st.narrativeState.answers) ∧
    mojoScore ["hello".data, "world!!".data] = 64 := by
  refine ⟨?_, ?_, ?_⟩
  · intro answers _
    have havg : (0 : ℚ) ≤ (totalAnswerLength answers : ℚ) / (answers.length : ℚ) :=
      div_nonneg (Nat.cast_nonneg _) (Nat.cast_nonneg _)
    have hfac : (0 : ℚ) ≤ min ((answers.length : ℚ) / 10) 1 :=
      le_min (div_nonneg (Nat.cast_nonneg _) (by norm_num)) zero_le_one
    have hq : (0 : ℚ) ≤ (totalAnswerLength answers : ℚ) / (answers.length : ℚ) * 10 +
        (min ((answers.length : ℚ) / 10) 1) * 20 :=
      add_nonneg (mul_nonneg havg (by norm_num)) (mul_nonneg hfac (by norm_num))
    refine ⟨rfl, ?_, ?_⟩
    · exact le_min (Int.floor_nonneg.mpr hq) (by norm_num)
    · exact min_le_right _ _
  · intro st o now h
    exact ⟨finalRecord st.narrativeState.answers o now, by rw [handleFinalize_eq st o now h], rfl⟩
  · have ht : totalAnswerLength ["hello".data, "world!!".data] = 12 := by decide
    have hn : (["hello".data, "world!!".data] : List JStr).length = 2 := by decide
    unfold mojoScore
    rw [ht, hn]
    norm_num

theorem C1_mojoScore_correct_witness :
    (mojoScore ["hello".data, "world!!".data] = mojoScoreSpec ["hello".data, "world!!".data] ∧
      0 ≤ mojoScore ["hello".data, "world!!".data] ∧
      mojoScore ["hello".data, "world!!".data] ≤ 100) ∧
    (∃ d, (handleFinalize stOne AIOutcome.throws 5).2 = FinalizeResult.finalized d ∧
      d.mojoScore = mojoScore stOne.narrativeState.answers) :=
  ⟨C1_mojoScore_correct.1 ["hello".data, "world!!".data] (by decide),
   C1_mojoScore_correct.2.1 stOne AIOutcome.throws 5 (by decide)⟩

/-- C2: when the session has at least one answer and the generation call
fails in any way (throws or returns a response failing the shape check),
finalize still succeeds, no error is propagated, and the narrative text is
the deterministic fallback string, which contains the newline-joined
answers verbatim. -/
theorem C2_finalize_fallback (st : DOState) (o : AIOutcome) (now : Nat)
    (h : st.narrativeState.answers ≠ []) (hf : aiFailed o = true) :
    ∃ d, handleFinalize st o now = ({ st with finalNarrative := some d },
        FinalizeResult.finalized d) ∧
      d.narrativeText = (match o with
        | .throws => fallbackOnThrow (joinNL st.narrativeState.answers)
        | .returns _ => fallbackOnBadShape (joinNL st.narrativeState.answers)) ∧
      List.IsInfix (joinNL st.narrativeState.answers) d.narrativeText := by
  refine ⟨finalRecord st.narrativeState.answers o now, handleFinalize_eq st o now h, ?_, ?_⟩
  · cases o with
    | throws => rfl
    | returns r =>
      have hr : extractContent r = none := by
        simpa [aiFailed, Option.isNone_iff_eq_none] using hf
      simp [finalRecord, narrativeTextOf, hr]
  · cases o with
    | throws => exact ⟨"Final Narrative: ".data, [], by simp [finalRecord, narrativeTextOf, fallbackOnThrow]⟩
    | returns r =>
      have hr : extractContent r = none := by
        simpa [aiFailed, Option.isNone_iff_eq_none] using hf
      exact ⟨"Final Narrative (fallback): ".data, [],
        by simp [finalRecord, narrativeTextOf, hr, fallbackOnBadShape]⟩

theorem C2_finalize_fallback_witness :
    ∃ d, handleFinalize stOne AIOutcome.throws 5 =
        ({ stOne with finalNarrative := some d }, FinalizeResult.finalized d) ∧
      d.narrativeText = fallbackOnThrow (joinNL stOne.narrativeState.answers) ∧
      List.IsInfix (joinNL stOne.narrativeState.answers) d.narrativeText :=
  C2_finalize_fallback stOne AIOutcome.throws 5 (by decide) rfl

lemma handleUpdate_valid (st : DOState) (a : JStr) (now : Nat)
    (h1 : a ≠ CLEAR_NARRATIVE) (h2 : jsTrim a ≠ []) (h3 : a.length ≤ 1000)
    (h4 : st.narrativeState.answers.length < 20) :
    handleUpdate st a now =
      ({ narrativeState := { answers := st.narrativeState.answers ++ [jsTrim a],
                             createdAt := st.narrativeState.createdAt,
                             lastUpdated := now },
         finalNarrative := st.finalNarrative },
       UpdateResult.answerAdded (st.narrativeState.answers.length + 1)) := by
  have hv : ¬ (a = [] ∨ (jsTrim a).length = 0 ∨ 1000 < a.length) := by
    rintro (he | hz | hl)
    · exact h2 (by rw [he]; rfl)
    · exact h2 (List.length_eq_zero.mp hz)
    · omega
  rw [handleUpdate, if_neg h1, if_neg hv, if_neg (by omega)]
  simp [List.length_append]

/-- C3 counterexample: a session already holding twenty answers does not
return CapacityExceeded for every input: the empty input yields
InvalidInput, and the reserved command clears the answer list. -/
theorem C3_counterexample :
    (handleUpdate stTwenty [] 1).2 = UpdateResult.invalidInput ∧
    (handleUpdate stTwenty CLEAR_NARRATIVE 1).1.narrativeState.answers.length = 0 ∧
    UpdateResult.invalidInput ≠ UpdateResult.capacityExceeded := by decide

/-- C3 (amended): every operation keeps the answer list at no more than
twenty entries, and a session holding twenty answers returns
CapacityExceeded without mutation for every valid input that is not the
reserved command. -/
theorem C3_capacity :
    (∀ (st : DOState) (op : Op), st.narrativeState.answers.length ≤ 20 →
        (applyOp st op).narrativeState.answers.length ≤ 20) ∧
    (∀ (st : DOState) (a : JStr) (now : Nat), a ≠ CLEAR_NARRATIVE → jsTrim a ≠ [] →
        a.length ≤ 1000 → st.narrativeState.answers.length = 20 →
        handleUpdate st a now = (st, UpdateResult.capacityExceeded)) := by
  constructor
  · intro st op h
    cases op with
    | update a now =>
      show (handleUpdate st a now).1.narrativeState.answers.length ≤ 20
      rw [handleUpdate]
      split_ifs with hc hv hcap
      · simp
      · exact h
      · exact h
      · simp only [List.length_append, List.length_cons, List.length_nil]
        omega
    | finalize o now =>
      show (handleFinalize st o now).1.narrativeState.answers.length ≤ 20
      rw [handleFinalize]
      split_ifs
      · exact h
      · exact h
  · intro st a now h1 h2 h3 h4
    have hv : ¬ (a = [] ∨ (jsTrim a).length = 0 ∨ 1000 < a.length) := by
      rintro (he | hz | hl)
      · exact h2 (by rw [he]; rfl)
      · exact h2 (List.length_eq_zero.mp hz)
      · omega
    rw [handleUpdate, if_neg h1, if_neg hv, if_pos (by omega)]

theorem C3_capacity_witness :
    (applyOp stTwenty (Op.update [Char.ofNat 98] 5)).narrativeState.answers.length ≤ 20 ∧
    handleUpdate stTwenty [Char.ofNat 98] 5 = (stTwenty, UpdateResult.capacityExceeded) :=
  ⟨C3_capacity.1 stTwenty (Op.update [Char.ofNat 98] 5) (by decide),
   C3_capacity.2 stTwenty [Char.ofNat 98] 5 (by decide) (by decide) (by decide) (by decide)⟩

/-- C4 counterexample: an input of 1000 spaces followed by one letter has
raw length 1001 but trims to a single letter, so by the claim it should be
accepted; the code still returns InvalidInput because it tests the raw
length. -/
theorem C4_counterexample :
    (jsTrim longRaw).length ≤ 1000 ∧ jsTrim longRaw ≠ [] ∧
    (handleUpdate (freshState 0) longRaw 1).2 = UpdateResult.invalidInput := by decide

/-- C4 (amended): appendAnswer returns InvalidInput exactly when the input
is empty after trimming or its raw (untrimmed) length exceeds 1000
characters, and in every such case the state is unchanged. -/
theorem C4_invalid_input :
    ∀ (st : DOState) (raw : JStr) (now : Nat),
      ((handleUpdate st raw now).2 = UpdateResult.invalidInput ↔
        (jsTrim raw = [] ∨ 1000 < raw.length)) ∧
      ((jsTrim raw = [] ∨ 1000 < raw.length) → (handleUpdate st raw now).1 = st) := by
  intro st raw now
  by_cases hc : raw = CLEAR_NARRATIVE
  · subst hc
    constructor
    · rw [handleUpdate, if_pos rfl]
      exact iff_of_false (fun h => UpdateResult.noConfusion h) (by decide)
    · intro h
      exact absurd h (by decide)
  · by_cases hv : raw = [] ∨ (jsTrim raw).length = 0 ∨ 1000 < raw.length
    · have hv2 : jsTrim raw = [] ∨ 1000 < raw.length := by
        rcases hv with he | hz | hl
        · exact Or.inl (by rw [he]; rfl)
        · exact Or.inl (List.length_eq_zero.mp hz)
        · exact Or.inr hl
      rw [handleUpdate, if_neg hc, if_pos hv]
      exact ⟨iff_of_true rfl hv2, fun _ => rfl⟩
    · have hv2 : ¬ (jsTrim raw = [] ∨ 1000 < raw.length) := by
        rcases (not_or.mp hv) with ⟨he, hrest⟩
        rcases (not_or.mp hrest) with ⟨hz, hl⟩
        rintro (ht | hl2)
        · exact hz (by rw [ht]; rfl)
        · exact hl hl2
      rw [handleUpdate, if_neg hc, if_neg hv]
      refine ⟨?_, fun h => absurd h hv2⟩
      by_cases hcap : 20 ≤ st.narrativeState.answers.length
      · rw [if_pos hcap]
        exact iff_of_false (fun h => UpdateResult.noConfusion h) hv2
      · rw [if_neg hcap]
        exact iff_of_false (fun h => UpdateResult.noConfusion h) hv2

theorem C4_invalid_input_witness :
    (handleUpdate (freshState 0) [' '] 3).2 = UpdateResult.invalidInput ∧
    (handleUpdate (freshState 0) [' '] 3).1 = freshState 0 :=
  ⟨(C4_invalid_input (freshState 0) [' '] 3).1.mpr (Or.inl (by decide)),
   (C4_invalid_input (freshState 0) [' '] 3).2 (Or.inl (by decide))⟩

/-- C7 counterexample: after a completed finalize, an append against the
same session does not fail with SessionFinalized; it succeeds and appends
a second answer. -/
theorem C7_counterexample :
    (handleUpdate (handleFinalize stOne AIOutcome.throws 5).1 [Char.ofNat 120] 6).2 =
      UpdateResult.answerAdded 2 ∧
    (handleUpdate (handleFinalize stOne AIOutcome.throws 5).1 [Char.ofNat 120] 6).1.narrativeState.answers =
      [[Char.ofNat 104, Char.ofNat 105], [Char.ofNat 120]] := by decide

/-- C7 (amended): finalize leaves the session in the collecting state, so a
subsequent valid append against the finalized session succeeds and extends
the same answer list; no SessionFinalized error exists in the code. -/
theorem C7_append_after_finalize :
    ∀ (st : DOState) (o : AIOutcome) (now : Nat) (a : JStr) (now2 : Nat),
      st.narrativeState.answers ≠ [] → a ≠ CLEAR_NARRATIVE → jsTrim a ≠ [] →
      a.length ≤ 1000 → st.narrativeState.answers.length < 20 →
      (handleUpdate (handleFinalize st o now).1 a now2).2 =
        UpdateResult.answerAdded (st.narrativeState.answers.length + 1) ∧
      (handleUpdate (handleFinalize st o now).1 a now2).1.narrativeState.answers =
        st.narrativeState.answers ++ [jsTrim a] := by
  intro st o now a now2 h0 h1 h2 h3 h4
  rw [handleFinalize_fst st o now h0]
  rw [handleUpdate_valid
    { st with finalNarrative := some (finalRecord st.narrativeState.answers o now) }
    a now2 h1 h2 h3 h4]
  exact ⟨rfl, rfl⟩

theorem C7_append_after_finalize_witness :
    (handleUpdate (handleFinalize stOne AIOutcome.throws 5).1 [Char.ofNat 120] 6).2 =
      UpdateResult.answerAdded (stOne.narrativeState.answers.length + 1) ∧
    (handleUpdate (handleFinalize stOne AIOutcome.throws 5).1 [Char.ofNat 120] 6).1.narrativeState.answers =
      stOne.narrativeState.answers ++ [jsTrim [Char.ofNat 120]] :=
  C7_append_after_finalize stOne AIOutcome.throws 5 [Char.ofNat 120] 6
    (by decide) (by decide) (by decide) (by decide) (by decide)

/-- C9 counterexample: an answer consisting of a space followed by the
reserved command is not intercepted, and its trimmed form, the string
CLEAR_NARRATIVE itself, is stored in the answer list. -/
theorem C9_counterexample :
    CLEAR_NARRATIVE ∈ (handleUpdate (freshState 0) sneakyRaw 1).1.narrativeState.answers := by
  decide

/-- C9 (amended): an append whose answer is exactly CLEAR_NARRATIVE never
appends and instead resets the session and deletes the stored final
narrative, and no other input triggers the reset; however an input that
merely trims to the reserved string is appended, so the stored list can
contain it. -/
theorem C9_reserved_command :
    (∀ (st : DOState) (now : Nat),
        (handleUpdate st CLEAR_NARRATIVE now).2 = UpdateResult.cleared ∧
        (handleUpdate st CLEAR_NARRATIVE now).1.narrativeState.answers = [] ∧
        (handleUpdate st CLEAR_NARRATIVE now).1.finalNarrative = none) ∧
    (∀ (st : DOState) (a : JStr) (now : Nat),
        (handleUpdate st a now).2 = UpdateResult.cleared → a = CLEAR_NARRATIVE) := by
  constructor
  · intro st now
    rw [handleUpdate, if_pos rfl]
    exact ⟨rfl, rfl, rfl⟩
  · intro st a now h
    by_cases hc : a = CLEAR_NARRATIVE
    · exact hc
    · exfalso
      rw [handleUpdate, if_neg hc] at h
      split_ifs at h

theorem C9_reserved_command_witness :
    (handleUpdate (freshState 0) CLEAR_NARRATIVE 3).1.narrativeState.answers = [] ∧
    CLEAR_NARRATIVE = CLEAR_NARRATIVE :=
  ⟨(C9_reserved_command.1 (freshState 0) 3).2.1,
   C9_reserved_command.2 (freshState 0) CLEAR_NARRATIVE 3 (by decide)⟩

/-- C10: finalize does not modify the session record, and two consecutive
finalize calls with no intervening operation produce the same mojo score
and the same answer count. -/
theorem C10_finalize_frame :
    ∀ (st : DOState) (o : AIOutcome) (now : Nat) (o2 : AIOutcome) (now2 : Nat),
      st.narrativeState.answers ≠ [] →
      (handleFinalize st o now).1.narrativeState = st.narrativeState ∧
      ∃ d d2, (handleFinalize st o now).2 = FinalizeResult.finalized d ∧
        (handleFinalize (handleFinalize st o now).1 o2 now2).2 = FinalizeResult.finalized d2 ∧
        d2.mojoScore = d.mojoScore ∧ d2.answerCount = d.answerCount := by
  intro st o now o2 now2 h
  refine ⟨?_, finalRecord st.narrativeState.answers o now,
    finalRecord st.narrativeState.answers o2 now2, ?_, ?_, rfl, rfl⟩
  · rw [handleFinalize_fst st o now h]
  · rw [handleFinalize_snd st o now h]
  · rw [handleFinalize_fst st o now h]
    rw [handleFinalize_snd
      { st with finalNarrative := some (finalRecord st.narrativeState.answers o now) }
      o2 now2 h]

theorem C10_finalize_frame_witness :
    (handleFinalize stOne AIOutcome.throws 5).1.narrativeState = stOne.narrativeState ∧
    ∃ d d2, (handleFinalize stOne AIOutcome.throws 5).2 = FinalizeResult.finalized d ∧
      (handleFinalize (handleFinalize stOne AIOutcome.throws 5).1 AIOutcome.throws 9).2 =
        FinalizeResult.finalized d2 ∧
      d2.mojoScore = d.mojoScore ∧ d2.answerCount = d.answerCount :=
  C10_finalize_frame stOne AIOutcome.throws 5 AIOutcome.throws 9 (by decide)
end JamKiller
